import Mathlib

/-!
Verification development for the bcv-tray application (src/main.rs).

The program keeps the latest exchange-rate quote per symbol in a SQLite
table `quotes(symbol TEXT PRIMARY KEY, rate REAL NOT NULL, last_updated
TEXT NOT NULL)`, refreshes it from three providers (BCV web scrape,
Binance P2P, CoinMarketCap), and renders the rates as one composite tray
bitmap plus a tooltip string.

Modelling conventions:
- machine floats (`f64`/`f32`) are modelled by `ℚ` with the rounding
  functions written out explicitly;
- the SQLite table is modelled by a list of rows with the primary-key
  discipline enforced by `upsert` (`INSERT OR REPLACE`);
- network results are inputs of the model: each provider's already-decoded
  payload arrives as an `Option`, `none` standing for any of the failure
  branches (transport error, bad status, JSON/selector failure).
-/

namespace BcvTray

/-- Constant `ICON_HEIGHT` (main.rs line 53). -/
def ICON_HEIGHT : Nat := 16

/-- Constant `PADDING` (main.rs line 54). -/
def PADDING : Nat := 4

/-- Constant `UPDATE_INTERVAL_SECONDS` (main.rs line 55). -/
def UPDATE_INTERVAL_SECONDS : Nat := 1800

/-- Constant `SATS_PER_BTC` (main.rs line 65). -/
def SATS_PER_BTC : ℚ := 100000000

/-- Constant `CURRENCY_MAPPINGS` (main.rs lines 67-71): display label,
icon asset key, store symbol. -/
def CURRENCY_MAPPINGS : List (String × String × String) :=
  [("BCV", "ved.png", "bcv"), ("BIN", "binance.png", "binance"), ("SAT", "satoshi.png", "satoshi")]

/-- Largest `u32` value: bound of the saturating width arithmetic. -/
def U32MAX : Nat := 4294967295

/-- Rust `f32::round` / `f64::round`: round to nearest, ties away from
zero, modelled on `ℚ`. -/
def roundRust (q : ℚ) : ℤ :=
  if 0 ≤ q then ⌊q + 1 / 2⌋ else -⌊-q + 1 / 2⌋

/-- Round to nearest with ties to even, as Rust fixed-precision float
formatting rounds the decimal expansion, computed on the numerator and
denominator: `f` is the floor of `q` and `r2 / den` twice the fractional
part, so `r2 < den`, `den < r2` and the tie compare the fraction with
one half. -/
def roundHalfEven (q : ℚ) : ℤ :=
  let f := Int.fdiv q.num (q.den : ℤ)
  let r2 := 2 * (q.num - f * (q.den : ℤ))
  if r2 < (q.den : ℤ) then f
  else if (q.den : ℤ) < r2 then f + 1
  else if f % 2 = 0 then f else f + 1

/-- A row of the `quotes` table: symbol, rate, last_updated
(main.rs lines 332-340, `initialize_database`). -/
abbrev Row := String × ℚ × String

/-- Model of `INSERT OR REPLACE INTO quotes VALUES(?1,?2,?3)` on a table
whose primary key is `symbol` (main.rs lines 332-340 and 372, 473-477,
539-543): the new row replaces any row with the same symbol. -/
def upsert (store : List Row) (sym : String) (v : ℚ) (t : String) : List Row :=
  (sym, v, t) :: store.filter (fun r => !(r.1 == sym))

/-- Model of `SELECT rate FROM quotes WHERE symbol=?1 ORDER BY
last_updated DESC LIMIT 1` (main.rs line 577): with `symbol` a primary
key at most one row matches, so the read is the matching row's rate. -/
def latest (store : List Row) (sym : String) : Option ℚ :=
  (store.find? (fun r => r.1 == sym)).map (fun r => r.2.1)

/-- Outcome of the per-symbol query inside `fetch_rates`
(main.rs lines 576-604): a rate row, `QueryReturnedNoRows`, or another
database error. -/
inductive QueryOutcome where
  | ok (rate : ℚ)
  | noRows
  | err
deriving DecidableEq

/-- Struct `RateInfo` (main.rs lines 74-79). -/
structure RateInfo where
  currency : String
  rate : ℚ
  icon_asset_path : String
deriving DecidableEq

/-- One loop iteration of `fetch_rates` (main.rs lines 575-605): on a
rate row push it, on `QueryReturnedNoRows` or any other error push the
mapping with rate `0.0`. -/
def rateFor (query : String → QueryOutcome) (m : String × String × String) : RateInfo :=
  match query m.2.2 with
  | QueryOutcome.ok v => { currency := m.1, rate := v, icon_asset_path := m.2.1 }
  | QueryOutcome.noRows => { currency := m.1, rate := 0, icon_asset_path := m.2.1 }
  | QueryOutcome.err => { currency := m.1, rate := 0, icon_asset_path := m.2.1 }

/-- Function `fetch_rates` (main.rs lines 573-607): one `RateInfo` per
entry of `CURRENCY_MAPPINGS`, in order. -/
def fetch_rates (query : String → QueryOutcome) : List RateInfo :=
  CURRENCY_MAPPINGS.map (rateFor query)

/-- The query the store model answers (main.rs lines 576-580): the
matching row's rate when present, else no rows. -/
def queryOf (store : List Row) (sym : String) : QueryOutcome :=
  match store.find? (fun r => r.1 == sym) with
  | some r => QueryOutcome.ok r.2.1
  | none => QueryOutcome.noRows

/-- Rust `str::replace` for a single-character pattern: every occurrence
of `c` in `s` is replaced by `r` (used at main.rs line 365 with the
patterns "." and ","). -/
def rustReplaceChar (s : String) (c : Char) (r : String) : String :=
  String.mk ((s.data.map (fun a => if a = c then r.data else [a])).flatten)

/-- The BCV rate-string normalization (main.rs line 365):
`raw.replace(".", "").replace(",", ".")` — every '.' removed first, then
every ',' turned into '.'. -/
def bcvNormalize (raw : String) : String :=
  rustReplaceChar (rustReplaceChar raw '.' "") ',' "."

/-- Value of one decimal digit, `none` for any other character. -/
def digitVal (c : Char) : Option Nat :=
  if c.isDigit then some (c.toNat - 48) else none

/-- Digits read as a base-10 natural number; `none` as soon as one
character is not a digit; the empty list reads as 0. -/
def parseDigits (cs : List Char) : Option Nat :=
  cs.foldl
    (fun acc c =>
      match acc, digitVal c with
      | some n, some d => some (n * 10 + d)
      | _, _ => none)
    (some 0)

/-- Split a character list at its first '.', when one occurs. -/
def splitAtDot : List Char → List Char × Option (List Char)
  | [] => ([], none)
  | c :: cs =>
    if c = '.' then ([], some cs)
    else
      let rest := splitAtDot cs
      (c :: rest.1, rest.2)

/-- Model of Rust `str::parse::<f64>` on plain decimal strings
(main.rs lines 366 and 467): integer digits, optionally a '.' and
fraction digits, at least one digit overall. Signs, exponents and the
inf/nan forms are omitted: no modelled input carries them; the result is
the exact rational the digits denote, `(n·10^k + m) / 10^k` for integer
part `n`, fraction part `m` of `k` digits. -/
def parse_f64 (s : String) : Option ℚ :=
  match s.data with
  | [] => none
  | cs =>
    let parts := splitAtDot cs
    match parts.2 with
    | none => if parts.1.isEmpty then none else (parseDigits parts.1).map (fun n => (n : ℚ))
    | some f =>
      if parts.1.isEmpty && f.isEmpty then none
      else
        match parseDigits parts.1, parseDigits f with
        | some n, some m => some (mkRat ((n * 10 ^ f.length + m : Nat) : ℤ) (10 ^ f.length))
        | _, _ => none

/-- The inputs one refresh cycle of `perform_data_update` consumes
(main.rs lines 342-571), with the network abstracted away:
`bcvRaw` is the text at the BCV CSS selector when the page fetch,
status check and selector all succeed (lines 352-362), else `none`;
`binancePrice` is the first advert's price string when the POST, status,
JSON decode, success flag, code check and non-empty data all hold
(lines 454-467), else `none`; `cmcApiKey` is the `CMC_PRO_API_KEY`
value ("" when unset, line 179); `cmcBtcPrice` is the decoded BTC/USD
price when the CMC request succeeds (lines 523-533), else `none`;
`dbOk sym` is whether the `INSERT OR REPLACE` for `sym` succeeds;
`now` the `Utc::now().to_rfc3339()` timestamp. -/
structure FetchInputs where
  bcvRaw : Option String
  binancePrice : Option String
  cmcApiKey : String
  cmcBtcPrice : Option ℚ
  dbOk : String → Bool
  now : String

/-- The BCV section of `perform_data_update` (main.rs lines 350-415):
normalize the scraped string, parse it, and on success upsert symbol
"bcv"; every failure branch leaves the store untouched and the success
flag unset. -/
def bcvStep (store : List Row) (inp : FetchInputs) : List Row × Bool :=
  match inp.bcvRaw with
  | none => (store, false)
  | some raw =>
    match parse_f64 (bcvNormalize raw) with
    | none => (store, false)
    | some v =>
      if inp.dbOk "bcv" then (upsert store "bcv" v inp.now, true) else (store, false)

/-- The Binance P2P section of `perform_data_update`
(main.rs lines 417-518): parse the first advert's price string and on
success upsert symbol "binance". -/
def binanceStep (store : List Row) (inp : FetchInputs) : List Row × Bool :=
  match inp.binancePrice with
  | none => (store, false)
  | some priceStr =>
    match parse_f64 priceStr with
    | none => (store, false)
    | some v =>
      if inp.dbOk "binance" then (upsert store "binance" v inp.now, true) else (store, false)

/-- The CMC section of `perform_data_update` (main.rs lines 520-564):
skipped entirely when the API key is empty; otherwise on a decoded BTC
price upsert symbol "satoshi" with `SATS_PER_BTC / btc_price_usd`. -/
def cmcStep (store : List Row) (inp : FetchInputs) : List Row × Bool :=
  if inp.cmcApiKey = "" then (store, false)
  else
    match inp.cmcBtcPrice with
    | none => (store, false)
    | some btcUsd =>
      if inp.dbOk "satoshi" then
        (upsert store "satoshi" (SATS_PER_BTC / btcUsd) inp.now, true)
      else (store, false)

/-- Function `perform_data_update` (main.rs lines 342-571): run the three
provider sections in order over the store, OR their success flags into
`an_update_succeeded`, and return `Ok(())` when it is set, else
`Err("No rates were successfully updated.")` (lines 566-570). -/
def perform_data_update (store : List Row) (inp : FetchInputs) :
    List Row × Except String Unit :=
  let r1 := bcvStep store inp
  let r2 := binanceStep r1.1 inp
  let r3 := cmcStep r2.1 inp
  (r3.1,
    if r1.2 || r2.2 || r3.2 then Except.ok ()
    else Except.error "No rates were successfully updated.")

/-- Whether the BCV fetch succeeded: a scraped string arrived and parsed
(main.rs lines 360-366). -/
def bcvFetched (inp : FetchInputs) : Bool :=
  (inp.bcvRaw.bind (fun raw => parse_f64 (bcvNormalize raw))).isSome

/-- Whether the BCV value was committed: fetch succeeded and the database
write succeeded (main.rs line 372). -/
def bcvCommitted (inp : FetchInputs) : Bool :=
  bcvFetched inp && inp.dbOk "bcv"

/-- Whether the Binance fetch succeeded: an advert price string arrived
and parsed (main.rs lines 462-467). -/
def binanceFetched (inp : FetchInputs) : Bool :=
  (inp.binancePrice.bind parse_f64).isSome

/-- Whether the Binance value was committed (main.rs lines 473-477). -/
def binanceCommitted (inp : FetchInputs) : Bool :=
  binanceFetched inp && inp.dbOk "binance"

/-- Whether the CMC fetch succeeded: the key is set and a BTC price was
decoded (main.rs lines 521-533). -/
def cmcFetched (inp : FetchInputs) : Bool :=
  (!(inp.cmcApiKey == "")) && inp.cmcBtcPrice.isSome

/-- Whether the satoshi value was committed (main.rs lines 539-543). -/
def cmcCommitted (inp : FetchInputs) : Bool :=
  cmcFetched inp && inp.dbOk "satoshi"

/-- At least one fetcher variant succeeded this cycle. -/
def anyFetchSucceeded (inp : FetchInputs) : Bool :=
  bcvFetched inp || binanceFetched inp || cmcFetched inp

/-- At least one value was committed to the store this cycle. -/
def anyCommitted (inp : FetchInputs) : Bool :=
  bcvCommitted inp || binanceCommitted inp || cmcCommitted inp

/-- The `UserEvent` enum (main.rs lines 139-143). -/
inductive UserEvent where
  | TrayIconEvent
  | MenuEvent
  | UpdateTray
deriving DecidableEq

/-- What the background refresh thread sends the event loop after one
`perform_data_update` call (main.rs lines 235-239): both the `Ok` and the
`Err` arm fall through to `send_event(UserEvent::UpdateTray)`. -/
def refresh_cycle_signal (r : Except String Unit) : UserEvent :=
  match r with
  | Except.ok _ => UserEvent.UpdateTray
  | Except.error _ => UserEvent.UpdateTray

/-- All-failure refresh inputs: no BCV text, no Binance price, no CMC key,
no BTC price. -/
def inpAllFail : FetchInputs :=
  { bcvRaw := none, binancePrice := none, cmcApiKey := "", cmcBtcPrice := none,
    dbOk := fun _ => true, now := "2026-01-01T00:00:00+00:00" }

/-- Refresh inputs whose BCV scrape returns text that does not parse as a
number after normalization. -/
def inpBadParse : FetchInputs :=
  { bcvRaw := some "price", binancePrice := none, cmcApiKey := "", cmcBtcPrice := none,
    dbOk := fun _ => true, now := "2026-01-01T00:00:00+00:00" }

/-- Two-digit zero-padded decimal of a natural number below 100. -/
def twoDigits (n : Nat) : String :=
  (if n < 10 then "0" else "") ++ toString n

/-- Model of Rust `format!("{:.2}", x)` on a finite value: the decimal
expansion rounded to two fractional digits, ties to even
(main.rs line 669). -/
def fmt2 (q : ℚ) : String :=
  let m := roundHalfEven (mkRat (q.num * 100) q.den)
  (if m < 0 then "-" else "") ++ toString (m.natAbs / 100) ++ "." ++ twoDigits (m.natAbs % 100)

/-- Rust `str::trim` (main.rs line 670): leading and trailing whitespace
removed. -/
def rustTrim (s : String) : String :=
  String.mk (((s.data.dropWhile Char.isWhitespace).reverse.dropWhile Char.isWhitespace).reverse)

/-- Rust `Vec::join` on strings (main.rs line 727). -/
def joinSep (sep : String) : List String → String
  | [] => ""
  | [s] => s
  | s :: rest => s ++ sep ++ joinSep sep rest

/-- Per-rate text drawn into the segment (main.rs line 669):
`format!("{:.2}  ", rate_info.rate)`. -/
def segment_label_text (r : RateInfo) : String :=
  fmt2 r.rate ++ "  "

/-- Per-rate tooltip item (main.rs line 670):
`format!("{}: {}", rate_info.currency, text_str.trim())`. -/
def segment_tooltip (r : RateInfo) : String :=
  r.currency ++ ": " ++ rustTrim (segment_label_text r)

/-- The tooltip of one composite render (main.rs lines 664, 670, 727):
the per-rate items joined with " | " in mapping order. -/
def tooltip_of (rates : List RateInfo) : String :=
  joinSep " | " (rates.map segment_tooltip)

/-- The measured inputs of one layout slot in `generate_tray_icon_image`
(main.rs lines 646-679): `iconWidth` is the loaded icon bitmap's width,
`none` when `load_and_resize_icon_from_embed` failed; `textWidth` is the
max right-edge over the glyph bounding boxes of the value text, 0 when no
glyph has a bounding box. -/
structure SegmentInput where
  iconWidth : Option Nat
  textWidth : Nat
deriving DecidableEq

/-- Effective icon width of a slot (main.rs line 668):
`icon_img_opt.map_or(ICON_HEIGHT / 2, |img| img.width().max(1))`. -/
def segIconWidth (s : SegmentInput) : Nat :=
  s.iconWidth.elim (ICON_HEIGHT / 2) (fun w => max w 1)

/-- Effective text width of a slot (main.rs line 680):
`text_w.max(10)`. -/
def segTextWidth (s : SegmentInput) : Nat :=
  max s.textWidth 10

/-- Rust `u32::saturating_add`. -/
def satAdd (a b : Nat) : Nat :=
  min (a + b) U32MAX

/-- The width-accumulation loop of `generate_tray_icon_image`
(main.rs lines 691-696): an inter-segment `PADDING` before every slot but
the first, then the icon width, the icon/text `PADDING`, and the text
width, all with `saturating_add`. -/
def totalWidthAux : List SegmentInput → Bool → Nat → Nat
  | [], _, acc => acc
  | s :: rest, first, acc =>
    let acc1 := if first then acc else satAdd acc PADDING
    totalWidthAux rest false
      (satAdd (satAdd (satAdd acc1 (segIconWidth s)) PADDING) (segTextWidth s))

/-- The accumulated `total_w` over all slots (main.rs lines 662-698). -/
def totalWidth (segs : List SegmentInput) : Nat :=
  totalWidthAux segs true 0

/-- Width of the allocated composite canvas (main.rs lines 700-706):
`none` when `total_w == 0` (the fallback icon is substituted), else
`total_w.max(1)`. -/
def canvasWidth (segs : List SegmentInput) : Option Nat :=
  if totalWidth segs = 0 then none else some (max (totalWidth segs) 1)

/-- Declarative width of one slot: icon width, icon/text padding, text
width. -/
def segmentWidth (s : SegmentInput) : Nat :=
  segIconWidth s + PADDING + segTextWidth s

/-- Font vertical metrics at the render scale (rusttype `VMetrics`):
ascent is normally positive, descent normally negative. -/
structure VMetrics where
  ascent : ℚ
  descent : ℚ
deriving DecidableEq

/-- The vertical-centering base line `ty` (main.rs lines 660 and 756):
`((H - (ascent - descent)) / 2.0 + ascent).round() as i32`. -/
def text_y (H : ℚ) (vm : VMetrics) : ℤ :=
  roundRust ((H - (vm.ascent - vm.descent)) / 2 + vm.ascent)

/-- The y-coordinate actually passed to `draw_text_mut` for a segment
(main.rs line 686): `ty - vm.ascent.abs().round() as i32`. -/
def segment_text_y (vm : VMetrics) : ℤ :=
  text_y (ICON_HEIGHT : ℚ) vm - roundRust |vm.ascent|

/-- The y-coordinate actually passed to `draw_text_mut` in
`create_fallback_icon` (main.rs line 762):
`ty - vm.descent.abs().round() as i32`. -/
def fallback_text_y (vm : VMetrics) : ℤ :=
  text_y (ICON_HEIGHT : ℚ) vm - roundRust |vm.descent|

/-- Width of the bitmap `load_and_resize_icon_from_embed` produces for a
successfully decoded asset of dimensions `w × h` (main.rs lines 609-634):
error on zero target height or a zero source dimension, else the resize
target width `((target_height * (w / h)).round() as u32).max(1)`. The
asset bytes and the decoder are abstracted: a load or decode failure is
the `none` arm of `SegmentInput.iconWidth` at the caller. -/
def load_and_resize_icon_width (w h target_height : Nat) : Except String Nat :=
  if target_height = 0 then Except.error "Target height 0"
  else if h = 0 ∨ w = 0 then Except.error "Embedded icon zero dim"
  else Except.ok (max (roundRust ((target_height : ℚ) * ((w : ℚ) / (h : ℚ)))).toNat 1)

/-! Helper lemmas. -/

lemma bcvStep_snd (store : List Row) (inp : FetchInputs) :
    (bcvStep store inp).2 = bcvCommitted inp := by
  unfold bcvStep bcvCommitted bcvFetched
  cases hb : inp.bcvRaw with
  | none => simp
  | some raw =>
    cases hp : parse_f64 (bcvNormalize raw) with
    | none => simp [hp]
    | some v => cases hdb : inp.dbOk "bcv" <;> simp [hp, hdb]

lemma binanceStep_snd (store : List Row) (inp : FetchInputs) :
    (binanceStep store inp).2 = binanceCommitted inp := by
  unfold binanceStep binanceCommitted binanceFetched
  cases hb : inp.binancePrice with
  | none => simp
  | some priceStr =>
    cases hp : parse_f64 priceStr with
    | none => simp [hp]
    | some v => cases hdb : inp.dbOk "binance" <;> simp [hp, hdb]

lemma cmcStep_snd (store : List Row) (inp : FetchInputs) :
    (cmcStep store inp).2 = cmcCommitted inp := by
  unfold cmcStep cmcCommitted cmcFetched
  by_cases hk : inp.cmcApiKey = ""
  · simp [hk]
  · cases hb : inp.cmcBtcPrice with
    | none => simp [hk, hb]
    | some p => cases hdb : inp.dbOk "satoshi" <;> simp [hk, hb, hdb]

lemma bcvStep_of_not_fetched (store : List Row) (inp : FetchInputs)
    (h : bcvFetched inp = false) : bcvStep store inp = (store, false) := by
  unfold bcvFetched at h
  unfold bcvStep
  cases hb : inp.bcvRaw with
  | none => rfl
  | some raw =>
    rw [hb] at h
    cases hp : parse_f64 (bcvNormalize raw) with
    | none => simp [hp]
    | some v => simp [hp] at h

lemma binanceStep_of_not_fetched (store : List Row) (inp : FetchInputs)
    (h : binanceFetched inp = false) : binanceStep store inp = (store, false) := by
  unfold binanceFetched at h
  unfold binanceStep
  cases hb : inp.binancePrice with
  | none => rfl
  | some priceStr =>
    rw [hb] at h
    cases hp : parse_f64 priceStr with
    | none => simp [hp]
    | some v => simp [hp] at h

lemma cmcStep_of_not_fetched (store : List Row) (inp : FetchInputs)
    (h : cmcFetched inp = false) : cmcStep store inp = (store, false) := by
  unfold cmcFetched at h
  unfold cmcStep
  by_cases hk : inp.cmcApiKey = ""
  · simp [hk]
  · rw [if_neg hk]
    cases hb : inp.cmcBtcPrice with
    | none => rfl
    | some p => rw [hb] at h; simp [hk] at h

lemma anyCommitted_fetched (inp : FetchInputs) (h : anyCommitted inp = true) :
    anyFetchSucceeded inp = true := by
  unfold anyCommitted bcvCommitted binanceCommitted cmcCommitted at h
  unfold anyFetchSucceeded
  simp only [Bool.or_eq_true, Bool.and_eq_true] at h ⊢
  tauto

lemma perform_snd_eq (store : List Row) (inp : FetchInputs) :
    (perform_data_update store inp).2 =
      (if anyCommitted inp then Except.ok ()
       else Except.error "No rates were successfully updated.") := by
  simp only [perform_data_update, anyCommitted]
  rw [bcvStep_snd, binanceStep_snd, cmcStep_snd]

lemma satAdd_min (x y : Nat) : satAdd (min x U32MAX) y = min (x + y) U32MAX := by
  unfold satAdd
  omega

lemma totalWidthAux_false (segs : List SegmentInput) (x : Nat) :
    totalWidthAux segs false (min x U32MAX) =
      min (x + (segs.map (fun s => PADDING + segmentWidth s)).sum) U32MAX := by
  induction segs generalizing x with
  | nil => simp [totalWidthAux]
  | cons s rest ih =>
    simp only [totalWidthAux, List.map_cons, List.sum_cons, Bool.false_eq_true, if_false]
    rw [satAdd_min, satAdd_min, satAdd_min, satAdd_min, ih]
    congr 1
    simp only [segmentWidth]
    ring

lemma sum_map_pad (l : List SegmentInput) :
    (l.map (fun s => PADDING + segmentWidth s)).sum
      = (l.map segmentWidth).sum + l.length * PADDING := by
  induction l with
  | nil => simp
  | cons a t ih =>
    simp only [List.map_cons, List.sum_cons, List.length_cons, ih]
    ring

lemma roundRust_sub_abs_le (q : ℚ) : |(roundRust q : ℚ) - q| ≤ 1 / 2 := by
  unfold roundRust
  split
  · rw [abs_le]
    have h1 := Int.sub_one_lt_floor (q + 1 / 2)
    have h2 := Int.floor_le (q + 1 / 2)
    constructor <;> [skip; skip] <;> push_cast at h1 h2 ⊢ <;> linarith
  · rw [abs_le]
    have h1 := Int.sub_one_lt_floor (-q + 1 / 2)
    have h2 := Int.floor_le (-q + 1 / 2)
    constructor <;> [skip; skip] <;> push_cast at h1 h2 ⊢ <;> linarith

/-! Claim theorems. -/

/-- C1 (amended): the overall result of `perform_data_update` is `Ok` iff
at least one fetcher variant succeeded and at least one value was
committed to the store; otherwise it is
`Err("No rates were successfully updated.")`. -/
theorem perform_data_update_ok_iff (store : List Row) (inp : FetchInputs) :
    (((perform_data_update store inp).2 = Except.ok ()) ↔
      (anyFetchSucceeded inp = true ∧ anyCommitted inp = true)) ∧
    ((perform_data_update store inp).2 = Except.ok () ∨
      (perform_data_update store inp).2 =
        Except.error "No rates were successfully updated.") := by
  rw [perform_snd_eq]
  by_cases h : anyCommitted inp = true
  · have hf := anyCommitted_fetched inp h
    simp [h, hf]
  · simp [h]

/-- C1 counterexample: when every provider fails, the error value is
`"No rates were successfully updated."`, not `"no sources updated"` as the
specification spells it. -/
theorem perform_data_update_error_string :
    (perform_data_update [] inpAllFail).2 =
      Except.error "No rates were successfully updated." ∧
    (perform_data_update [] inpAllFail).2 ≠ Except.error "no sources updated" := by
  refine ⟨rfl, ?_⟩
  intro hco
  rw [show (perform_data_update [] inpAllFail).2 =
      Except.error "No rates were successfully updated." from rfl] at hco
  exact absurd (Except.error.inj hco) (by decide)

/-- C2 (amended): when every fetcher variant fails, `perform_data_update`
returns the error outcome and leaves the store unchanged, and the host is
signaled with the same `UpdateTray` event that follows a successful
refresh — the `UserEvent` type has no distinct `RefreshFailed` variant. -/
theorem refresh_all_fail_spec (store : List Row) (inp : FetchInputs)
    (h1 : bcvFetched inp = false) (h2 : binanceFetched inp = false)
    (h3 : cmcFetched inp = false) :
    (perform_data_update store inp).1 = store ∧
    (perform_data_update store inp).2 =
      Except.error "No rates were successfully updated." ∧
    refresh_cycle_signal (perform_data_update store inp).2 = UserEvent.UpdateTray ∧
    refresh_cycle_signal (Except.ok ()) = UserEvent.UpdateTray := by
  have e1 := bcvStep_of_not_fetched store inp h1
  have e2 := binanceStep_of_not_fetched store inp h2
  have e3 := cmcStep_of_not_fetched store inp h3
  have key : perform_data_update store inp =
      (store, Except.error "No rates were successfully updated.") := by
    simp [perform_data_update, e1, e2, e3]
  rw [key]
  exact ⟨rfl, rfl, rfl, rfl⟩

/-- C2 witness: the all-failure refresh at a concrete store. -/
theorem refresh_all_fail_spec_witness :
    (perform_data_update [("bcv", (5 : ℚ), "t0")] inpAllFail).1 =
      [("bcv", (5 : ℚ), "t0")] ∧
    (perform_data_update [("bcv", (5 : ℚ), "t0")] inpAllFail).2 =
      Except.error "No rates were successfully updated." ∧
    refresh_cycle_signal (perform_data_update [("bcv", (5 : ℚ), "t0")] inpAllFail).2 =
      UserEvent.UpdateTray ∧
    refresh_cycle_signal (Except.ok ()) = UserEvent.UpdateTray := by
  exact refresh_all_fail_spec [("bcv", (5 : ℚ), "t0")] inpAllFail rfl rfl rfl

/-- C2 counterexample: after an all-failure refresh the event sent to the
host equals the event sent after a successful refresh (`UpdateTray` both
times), so no distinct `RefreshFailed` signal is emitted. -/
theorem refresh_signal_not_distinct :
    (perform_data_update [("bcv", (5 : ℚ), "t0")] inpAllFail).2 =
      Except.error "No rates were successfully updated." ∧
    refresh_cycle_signal (perform_data_update [("bcv", (5 : ℚ), "t0")] inpAllFail).2 =
      UserEvent.UpdateTray ∧
    refresh_cycle_signal (Except.ok ()) = UserEvent.UpdateTray :=
  ⟨rfl, rfl, rfl⟩

/-- C3: for every store state (any per-symbol query outcome, including
errors), `fetch_rates` yields exactly one `RateInfo` per configured
mapping, in mapping order, and a symbol whose query returns no rows still
yields an entry, with rate 0. -/
theorem fetch_rates_spec (query : String → QueryOutcome) (i : Nat)
    (label icon sym : String)
    (hm : CURRENCY_MAPPINGS[i]? = some (label, icon, sym)) :
    (fetch_rates query).length = CURRENCY_MAPPINGS.length ∧
    ((fetch_rates query)[i]?).map RateInfo.currency = some label ∧
    ((fetch_rates query)[i]?).map RateInfo.icon_asset_path = some icon ∧
    (query sym = QueryOutcome.noRows →
      ((fetch_rates query)[i]?).map RateInfo.rate = some 0) := by
  have hget : (fetch_rates query)[i]? = some (rateFor query (label, icon, sym)) := by
    simp [fetch_rates, List.getElem?_map, hm]
  refine ⟨by simp [fetch_rates], ?_, ?_, ?_⟩
  · rw [hget]; cases hq : query sym <;> simp [rateFor, hq]
  · rw [hget]; cases hq : query sym <;> simp [rateFor, hq]
  · intro hq; rw [hget]; simp [rateFor, hq]

/-- C3 witness: the third mapping against a store that answers no rows for
every symbol. -/
theorem fetch_rates_spec_witness :
    (fetch_rates (fun _ => QueryOutcome.noRows)).length = CURRENCY_MAPPINGS.length ∧
    ((fetch_rates (fun _ => QueryOutcome.noRows))[2]?).map RateInfo.currency = some "SAT" ∧
    ((fetch_rates (fun _ => QueryOutcome.noRows))[2]?).map RateInfo.icon_asset_path =
      some "satoshi.png" ∧
    ((fun _ => QueryOutcome.noRows) "satoshi" = QueryOutcome.noRows →
      ((fetch_rates (fun _ => QueryOutcome.noRows))[2]?).map RateInfo.rate = some 0) := by
  exact fetch_rates_spec (fun _ => QueryOutcome.noRows) 2 "SAT" "satoshi.png" "satoshi" rfl

/-- C4: for every non-empty segment list the composite canvas width is the
sum over segments of icon width + padding + text width, plus one
inter-segment padding between consecutive segments, the whole accumulated
with saturating `u32` addition (hence clamped at `u32::MAX` and never
overflowing). -/
theorem generate_width_spec (segs : List SegmentInput) (h : segs ≠ []) :
    canvasWidth segs =
      some (min ((segs.map segmentWidth).sum + (segs.length - 1) * PADDING) U32MAX) ∧
    totalWidth segs ≤ U32MAX := by
  obtain ⟨s, rest, rfl⟩ := List.exists_cons_of_ne_nil h
  have hzero : (0 : Nat) = min 0 U32MAX := rfl
  have htot : totalWidth (s :: rest) =
      min ((List.map segmentWidth (s :: rest)).sum +
        ((s :: rest).length - 1) * PADDING) U32MAX := by
    unfold totalWidth totalWidthAux
    simp only [if_pos]
    rw [hzero, satAdd_min, satAdd_min, satAdd_min, totalWidthAux_false]
    rw [List.map_cons, List.sum_cons, sum_map_pad]
    congr 1
    simp only [segmentWidth, List.length_cons, Nat.add_sub_cancel]
    ring
  have hicon : 1 ≤ segIconWidth s := by
    cases hI : s.iconWidth <;> simp [segIconWidth, hI, ICON_HEIGHT]
  have htext : 10 ≤ segTextWidth s := le_max_right _ _
  have hge : 15 ≤ min ((List.map segmentWidth (s :: rest)).sum +
      ((s :: rest).length - 1) * PADDING) U32MAX := by
    have hs : 15 ≤ segmentWidth s := by
      simp only [segmentWidth, PADDING]
      omega
    have hsum : segmentWidth s ≤ (List.map segmentWidth (s :: rest)).sum := by
      rw [List.map_cons, List.sum_cons]
      exact Nat.le_add_right _ _
    have hM : (15 : Nat) ≤ U32MAX := by norm_num [U32MAX]
    omega
  refine ⟨?_, by rw [htot]; exact min_le_right _ _⟩
  rw [canvasWidth, htot, if_neg (by omega), max_eq_left (by omega)]

/-- C4 witness: two segments, one with a loaded 16-pixel icon, one whose
icon failed to load. -/
theorem generate_width_spec_witness :
    canvasWidth [⟨some 16, 20⟩, ⟨none, 0⟩] =
      some (min ((List.map segmentWidth [⟨some 16, 20⟩, ⟨none, 0⟩]).sum +
        (([⟨some 16, 20⟩, ⟨none, 0⟩] : List SegmentInput).length - 1) * PADDING) U32MAX) ∧
    totalWidth [⟨some 16, 20⟩, ⟨none, 0⟩] ≤ U32MAX := by
  exact generate_width_spec [⟨some 16, 20⟩, ⟨none, 0⟩] (List.cons_ne_nil _ _)

/-- C5 (amended): the vertical-centering base line equals
round((H − (ascent − descent)) / 2 + ascent) = round((H + ascent + descent) / 2)
and centers the text within one pixel, but the y-coordinate actually
passed to the draw call is that base line minus round(|ascent|) for
segments and minus round(|descent|) for the fallback icon. -/
theorem text_y_centering (H : ℚ) (vm : VMetrics) :
    text_y H vm = roundRust ((H + vm.ascent + vm.descent) / 2) ∧
    |2 * ((text_y H vm : ℤ) : ℚ) - (H + vm.ascent + vm.descent)| ≤ 1 ∧
    segment_text_y vm = text_y (ICON_HEIGHT : ℚ) vm - roundRust |vm.ascent| ∧
    fallback_text_y vm = text_y (ICON_HEIGHT : ℚ) vm - roundRust |vm.descent| := by
  have h1 : text_y H vm = roundRust ((H + vm.ascent + vm.descent) / 2) := by
    unfold text_y
    congr 1
    ring
  refine ⟨h1, ?_, rfl, rfl⟩
  have h2 := roundRust_sub_abs_le ((H + vm.ascent + vm.descent) / 2)
  rw [h1, show 2 * ((roundRust ((H + vm.ascent + vm.descent) / 2) : ℤ) : ℚ) -
      (H + vm.ascent + vm.descent) =
      2 * (((roundRust ((H + vm.ascent + vm.descent) / 2) : ℤ) : ℚ) -
        (H + vm.ascent + vm.descent) / 2) from by ring,
    abs_mul, abs_two]
  linarith

/-- C5 counterexample: with ascent 12 and descent −3 at icon height 16
(all values exact in `f32`), the base line is 13 but the segment text is
drawn at y = 1 and the fallback text at y = 10, so the drawn y-coordinate
is not the claimed round((H − (ascent − descent)) / 2 + ascent). -/
theorem text_y_draw_counterexample :
    segment_text_y ⟨12, -3⟩ ≠ text_y (ICON_HEIGHT : ℚ) ⟨12, -3⟩ ∧
    fallback_text_y ⟨12, -3⟩ ≠ text_y (ICON_HEIGHT : ℚ) ⟨12, -3⟩ ∧
    text_y (ICON_HEIGHT : ℚ) ⟨12, -3⟩ = 13 ∧
    segment_text_y ⟨12, -3⟩ = 1 ∧
    fallback_text_y ⟨12, -3⟩ = 10 := by
  have ht : text_y (ICON_HEIGHT : ℚ) ⟨12, -3⟩ = 13 := by
    unfold text_y roundRust
    rw [if_pos (by norm_num [ICON_HEIGHT])]
    norm_num [ICON_HEIGHT]
  have hs : segment_text_y ⟨12, -3⟩ = 1 := by
    unfold segment_text_y roundRust
    rw [ht, if_pos (abs_nonneg _)]
    norm_num
  have hf : fallback_text_y ⟨12, -3⟩ = 10 := by
    unfold fallback_text_y roundRust
    rw [ht, if_pos (abs_nonneg _)]
    norm_num
  refine ⟨?_, ?_, ht, hs, hf⟩
  · rw [hs, ht]; decide
  · rw [hf, ht]; decide

/-- C6: the BCV locale normalization turns "103.456,78" into "103456.78",
which parses to 103456.78; and a scraped string that fails to parse after
normalization leaves the store untouched and sets no success flag for
that provider — never a silent zero. -/
theorem bcv_normalization_spec (store : List Row) (inp : FetchInputs) (raw : String)
    (h1 : inp.bcvRaw = some raw) (h2 : parse_f64 (bcvNormalize raw) = none) :
    bcvNormalize "103.456,78" = "103456.78" ∧
    parse_f64 "103456.78" = some ((10345678 : ℚ) / 100) ∧
    bcvStep store inp = (store, false) := by
  refine ⟨by decide, ?_, ?_⟩
  · rw [show ((10345678 : ℚ) / 100) = mkRat 10345678 100 from by
      rw [Rat.mkRat_eq_div]; norm_num]
    decide
  · unfold bcvStep
    rw [h1]
    simp [h2]

/-- C6 witness: a scrape that returns the non-numeric text "price". -/
theorem bcv_normalization_spec_witness :
    bcvNormalize "103.456,78" = "103456.78" ∧
    parse_f64 "103456.78" = some ((10345678 : ℚ) / 100) ∧
    bcvStep [] inpBadParse = ([], false) := by
  exact bcv_normalization_spec [] inpBadParse "price" rfl (by decide)

/-- C7: `upsert` is idempotent — repeating the same (symbol, value,
timestamp) upsert changes nothing and leaves exactly one row for the
symbol, holding that value — and `latest` right after `upsert` returns the
upserted value regardless of the store's prior history. -/
theorem upsert_latest_spec (store : List Row) (sym : String) (v : ℚ) (t : String) :
    upsert (upsert store sym v t) sym v t = upsert store sym v t ∧
    (upsert (upsert store sym v t) sym v t).filter (fun r => r.1 == sym) = [(sym, v, t)] ∧
    latest (upsert store sym v t) sym = some v := by
  have h1 : upsert (upsert store sym v t) sym v t = upsert store sym v t := by
    simp [upsert, List.filter_filter]
  refine ⟨h1, ?_, ?_⟩
  · rw [h1]
    simp [upsert, List.filter_filter]
  · simp [latest, upsert]

/-- C8: the tooltip is the segments' "LABEL: value" strings (value in
two-decimal fixed formatting) joined with " | " in mapping order; with
bcv = 103.50 and binance = 108.20 stored and no satoshi row it is exactly
"BCV: 103.50 | BIN: 108.20 | SAT: 0.00". -/
theorem tooltip_example :
    mkRat 207 2 = (207 : ℚ) / 2 ∧
    mkRat 541 5 = (541 : ℚ) / 5 ∧
    tooltip_of (fetch_rates (queryOf
        (upsert (upsert [] "bcv" (mkRat 207 2) "t1") "binance" (mkRat 541 5) "t2"))) =
      "BCV: 103.50 | BIN: 108.20 | SAT: 0.00" ∧
    (fetch_rates (queryOf
        (upsert (upsert [] "bcv" (mkRat 207 2) "t1") "binance" (mkRat 541 5) "t2"))).length
      = 3 := by
  refine ⟨by rw [Rat.mkRat_eq_div]; norm_num, by rw [Rat.mkRat_eq_div]; norm_num, ?_, ?_⟩
  · decide
  · decide

/-- C9: a successfully decoded icon of positive dimensions w × h is
resized to width round(H · (w / h)) floored at one pixel, and a slot
whose icon failed to load reserves the placeholder width H / 2. -/
theorem icon_scaling_spec (w h tw : Nat) (hw : 0 < w) (hh : 0 < h) :
    load_and_resize_icon_width w h ICON_HEIGHT =
      Except.ok (max (roundRust ((ICON_HEIGHT : ℚ) * ((w : ℚ) / (h : ℚ)))).toNat 1) ∧
    1 ≤ max (roundRust ((ICON_HEIGHT : ℚ) * ((w : ℚ) / (h : ℚ)))).toNat 1 ∧
    segIconWidth ⟨none, tw⟩ = ICON_HEIGHT / 2 := by
  refine ⟨?_, le_max_right _ _, rfl⟩
  unfold load_and_resize_icon_width
  rw [if_neg (by norm_num [ICON_HEIGHT]), if_neg (by omega)]

/-- C9 witness: a 32 × 16 asset scaled to height 16 gets width 32. -/
theorem icon_scaling_spec_witness :
    load_and_resize_icon_width 32 16 ICON_HEIGHT =
      Except.ok (max (roundRust ((ICON_HEIGHT : ℚ) * (((32 : Nat) : ℚ) / ((16 : Nat) : ℚ)))).toNat 1) ∧
    1 ≤ max (roundRust ((ICON_HEIGHT : ℚ) * (((32 : Nat) : ℚ) / ((16 : Nat) : ℚ)))).toNat 1 ∧
    segIconWidth ⟨none, 7⟩ = ICON_HEIGHT / 2 := by
  exact icon_scaling_spec 32 16 7 (by norm_num) (by norm_num)

/-- C10: the BCV normalization strips every '.' before turning ',' into
'.', so the already-canonical string "103.45" is changed (normalization is
not the identity on canonical input) and parses to 10345 — one hundred
times its face value 103.45. -/
theorem bcv_normalize_canonical_input :
    bcvNormalize "103.45" = "10345" ∧
    bcvNormalize "103.45" ≠ "103.45" ∧
    parse_f64 (bcvNormalize "103.45") = some ((100 : ℚ) * ((2069 : ℚ) / 20)) := by
  refine ⟨rfl, by decide, ?_⟩
  rw [show ((100 : ℚ) * ((2069 : ℚ) / 20)) = ((10345 : ℕ) : ℚ) from by norm_num]
  decide

end BcvTray
